import Mathlib

/-!
Shallow embedding of the reconciliation and classification engine of the
osinfo-eval repository (src/extrair_notas_fiscais.py, src/app.py,
src/config.py).

Conventions of the embedding:
* Python `float` values are modelled as exact rationals (`ℚ`); the monetary
  cells that travel through the row dictionaries are modelled by `MonVal`
  (a number, the sentinel string "N/A", or any other non-numeric value on
  which Python's `float()` raises).
* A Python dict row is modelled by the structure `Nota`; a field whose key
  may be absent from the dict is an `Option` (`none` = key absent).
* Python string operations `strip`, `lstrip('0')`, `lower` and the
  substring test `a in b` are embedded below over `List Char`.
* The bookkeeping keys `nome_arquivo` and `total_paginas_pdf`, copied
  verbatim onto every row, are omitted: no matching or validation logic
  reads them.
-/

/-- Python whitespace characters recognised by `str.strip()`. -/
def isPySpace (c : Char) : Bool :=
  c == ' ' || c == '\t' || c == '\n' || c == '\r' || c == '\x0b' || c == '\x0c'

/-- Python `str.strip()` on a list of characters. -/
def pyStripL (l : List Char) : List Char :=
  ((l.dropWhile isPySpace).reverse.dropWhile isPySpace).reverse

/-- Python `str.strip()`. -/
def pyStrip (s : String) : String :=
  String.mk (pyStripL s.toList)

/-- Python `str.lower()` (ASCII case folding, which covers every document
type the configuration compares against). -/
def pyLower (s : String) : String :=
  String.mk (s.toList.map Char.toLower)

/-- `comecaCom p l` is Python's `l.startswith(p)` on character lists. -/
def comecaCom : List Char → List Char → Bool
  | [], _ => true
  | _ :: _, [] => false
  | a :: as, b :: bs => a == b && comecaCom as bs

/-- `contemSub p l` is Python's substring test `p in l` on character lists. -/
def contemSub (p : List Char) : List Char → Bool
  | [] => comecaCom p []
  | b :: bs => comecaCom p (b :: bs) || contemSub p bs

/-- Python substring test `p in s` on strings. -/
def pyContem (p s : String) : Bool :=
  contemSub p.toList s.toList

/-- A monetary cell of a row dict: a number (Python float / numeric string,
modelled as an exact rational), the sentinel string "N/A", or some other
value on which `float()` raises (e.g. the empty string used in orphan rows). -/
inductive MonVal where
  | na : MonVal
  | num : ℚ → MonVal
  | texto : String → MonVal
deriving DecidableEq

/-- Python `float(x)` restricted to how `validar_nota_fiscal` uses it inside
`try/except`: a number coerces to itself, everything else raises (`none`). -/
def paraFloat : MonVal → Option ℚ
  | MonVal.num q => some q
  | _ => none

/-- One row dict of the pipeline (an extracted invoice, an error record, or
an orphan ledger line).  `none` means the key is absent from the dict. -/
structure Nota where
  numeroPagina : Option String
  cnpjPrestador : Option String
  tipoDocumento : Option String
  numeroNf : Option String
  valorTotal : Option MonVal
  erro : Option String
  numDocumentoBq : Option String
  valorDocumentoBq : Option MonVal
  valorPagoTotalBq : Option MonVal
deriving DecidableEq

/-- One ledger row as returned by `consultar_bigquery_por_arquivo`
(both files, the dict built per BigQuery result row): `num_documento_bq`
is a string or the sentinel "N/A"; the two amounts are floats or "N/A". -/
structure RegistroBq where
  numDocumentoBq : String
  valorDocumentoBq : MonVal
  valorPagoTotalBq : MonVal
deriving DecidableEq

/-- The dict returned by `validar_nota_fiscal`. -/
structure Validacao where
  pdfPossuiNfEmDespesas : String
  valorPagoMenorIgualDeclarado : String
  valorNfIgualDeclarado : String
  classificacaoFinal : String
deriving DecidableEq

/-- src/config.py line 47. -/
def TOLERANCIA_COMPARACAO_VALORES : ℚ := 1 / 100

/-- src/config.py lines 50-59. -/
def TIPOS_DOCUMENTOS_VALIDOS : List String :=
  ["nota fiscal", "danfe", "fatura telefonia", "fatura concessionária",
   "fatura", "nf", "nfe", "nf-e"]

/-- The document-type gate of `validar_nota_fiscal`
(src/extrair_notas_fiscais.py lines 476-477, src/app.py lines 303-304):
`any(tipo in tipo_doc for tipo in TIPOS_DOCUMENTOS_VALIDOS) and tipo_doc != ''`
with `tipo_doc = str(nota.get('tipo_documento', '')).strip().lower()`. -/
def tipoDocumentoValido (tipoRaw : String) : Bool :=
  let tipoDoc := pyLower (pyStrip tipoRaw)
  (TIPOS_DOCUMENTOS_VALIDOS.any fun tipo => pyContem tipo tipoDoc) && tipoDoc != ""

/-- The all-"N/A" dict returned by the two early stops of
`validar_nota_fiscal` (error record, unrecognised document type). -/
def respostaNFPA : Validacao :=
  { pdfPossuiNfEmDespesas := "N/A"
    valorPagoMenorIgualDeclarado := "N/A"
    valorNfIgualDeclarado := "N/A"
    classificacaoFinal := "Não foi possível analisar" }

/-- Validação 2 of `validar_nota_fiscal` (src/extrair_notas_fiscais.py
lines 500-510): "SIM" iff `float(valor_pago) <= float(valor_documento)`,
"N/A" when either cell is the sentinel or fails float coercion. -/
def veredito2 (valorPagoBq valorDocumentoBq : MonVal) : String :=
  if valorPagoBq = MonVal.na ∨ valorDocumentoBq = MonVal.na then "N/A"
  else
    match paraFloat valorPagoBq, paraFloat valorDocumentoBq with
    | some pago, some declarado => if pago ≤ declarado then "SIM" else "NÃO"
    | _, _ => "N/A"

/-- Python's `abs` on the rationals that model floats (written as an
executable conditional; `absQ_eq_abs` identifies it with `|·|`). -/
def absQ (q : ℚ) : ℚ :=
  if q < 0 then -q else q

/-- Validação 3 of `validar_nota_fiscal` (src/extrair_notas_fiscais.py
lines 512-523): "SIM" iff `abs(float(valor_total) - float(valor_documento))
< TOLERANCIA_COMPARACAO_VALORES`, "N/A" on sentinels or failed coercion. -/
def veredito3 (valorTotalNf valorDocumentoBq : MonVal) : String :=
  if valorTotalNf = MonVal.na ∨ valorDocumentoBq = MonVal.na then "N/A"
  else
    match paraFloat valorTotalNf, paraFloat valorDocumentoBq with
    | some total, some declarado =>
        if absQ (total - declarado) < TOLERANCIA_COMPARACAO_VALORES then "SIM" else "NÃO"
    | _, _ => "N/A"

/-- The final classification (src/extrair_notas_fiscais.py lines 525-536):
all "SIM" gives "Descartado"; a "NÃO" gives "Suspeito"; the remaining case
(no "NÃO" but some "N/A") also gives "Suspeito". -/
def classificaRespostas (respostas : List String) : String :=
  if respostas.all fun resposta => resposta == "SIM" then "Descartado"
  else if respostas.contains "NÃO" then "Suspeito"
  else "Suspeito"

/-- `validar_nota_fiscal` (src/extrair_notas_fiscais.py lines 455-543;
src/app.py lines 290-366 is character-for-character the same logic).
In the source, `pdf_possui_nf` is `'NÃO' if num_documento_bq == 'N/A'
else 'SIM'` followed by an early return on the `'NÃO'` value, so the
branch condition here is that string comparison and the fall-through
branch carries `pdf_possui_nf = "SIM"`. -/
def validar_nota_fiscal (nota : Nota) : Validacao :=
  if nota.erro.isSome then respostaNFPA
  else if !tipoDocumentoValido (nota.tipoDocumento.getD "") then respostaNFPA
  else if nota.numDocumentoBq.getD "N/A" = "N/A" then
    { pdfPossuiNfEmDespesas := "NÃO"
      valorPagoMenorIgualDeclarado := "N/A"
      valorNfIgualDeclarado := "N/A"
      classificacaoFinal := "Suspeito" }
  else
    { pdfPossuiNfEmDespesas := "SIM"
      valorPagoMenorIgualDeclarado :=
        veredito2 (nota.valorPagoTotalBq.getD MonVal.na) (nota.valorDocumentoBq.getD MonVal.na)
      valorNfIgualDeclarado :=
        veredito3 (nota.valorTotal.getD MonVal.na) (nota.valorDocumentoBq.getD MonVal.na)
      classificacaoFinal :=
        classificaRespostas
          ["SIM",
           veredito2 (nota.valorPagoTotalBq.getD MonVal.na) (nota.valorDocumentoBq.getD MonVal.na),
           veredito3 (nota.valorTotal.getD MonVal.na) (nota.valorDocumentoBq.getD MonVal.na)] }

/-- `nota.update(registro)`: the three BigQuery keys of `registro` are
written into the row dict (src/extrair_notas_fiscais.py lines 342/346/367,
src/app.py line 544). -/
def atualizaComRegistro (nota : Nota) (reg : RegistroBq) : Nota :=
  { nota with
      numDocumentoBq := some reg.numDocumentoBq
      valorDocumentoBq := some reg.valorDocumentoBq
      valorPagoTotalBq := some reg.valorPagoTotalBq }

/-- Writing the three "N/A" sentinels into the row dict
(src/extrair_notas_fiscais.py lines 377-379, src/app.py lines 547-553). -/
def marcaSemRegistro (nota : Nota) : Nota :=
  { nota with
      numDocumentoBq := some "N/A"
      valorDocumentoBq := some MonVal.na
      valorPagoTotalBq := some MonVal.na }

/-- One iteration of the matching loop of `processar_todos_pdfs`
(src/extrair_notas_fiscais.py lines 333-338): a matching ledger row
overwrites `registro_matching` (so the last match wins), every other row is
appended to `registros_nao_matching` in order. -/
def passoSepara (numero : String) (acc : Option RegistroBq × List RegistroBq)
    (reg : RegistroBq) : Option RegistroBq × List RegistroBq :=
  if pyStrip reg.numDocumentoBq = numero then (some reg, acc.2)
  else (acc.1, acc.2 ++ [reg])

/-- The whole matching loop of the batch script: returns
`(registro_matching, registros_nao_matching)`. -/
def separaRegistros (numero : String) (registros : List RegistroBq) :
    Option RegistroBq × List RegistroBq :=
  registros.foldl (passoSepara numero) (none, [])

/-- The `linha_extra` dict skeleton for an orphan ledger row
(src/extrair_notas_fiscais.py lines 358-366): every invoice field is set to
the empty string (`valor_total` is the empty string as well, a value on
which `float()` raises). -/
def linhaVazia : Nota :=
  { numeroPagina := some ""
    cnpjPrestador := some ""
    tipoDocumento := some ""
    numeroNf := some ""
    valorTotal := some (MonVal.texto "")
    erro := none
    numDocumentoBq := none
    valorDocumentoBq := none
    valorPagoTotalBq := none }

/-- An orphan result row: `linha_extra.update(reg_extra)` followed by
`linha_extra.update(validar_nota_fiscal(linha_extra))`
(src/extrair_notas_fiscais.py lines 357-371). -/
def linhaOrfa (reg : RegistroBq) : Nota × Validacao :=
  (atualizaComRegistro linhaVazia reg,
   validar_nota_fiscal (atualizaComRegistro linhaVazia reg))

/-- The per-invoice body of the batch loop of `processar_todos_pdfs`
(src/extrair_notas_fiscais.py lines 320-385), producing the result rows
appended for one record `nota` returned by the extraction service, given
the full ledger list `registros` of the source document:
* with ledger rows and no error, the loop separates matching from
  non-matching rows, attaches the match (or, failing that, the first
  non-matching row — the fallback of lines 344-347), validates, and emits
  one extra validated row per remaining non-matching ledger row;
* otherwise the three sentinels are written only when the ledger list is
  empty (lines 376-379), and the row is validated and emitted alone. -/
def processaNotaBatch (registros : List RegistroBq) (nota : Nota) :
    List (Nota × Validacao) :=
  if registros ≠ [] ∧ nota.erro = none then
    match separaRegistros (pyStrip (nota.numeroNf.getD "")) registros with
    | (some reg, naoCasados) =>
        (atualizaComRegistro nota reg,
         validar_nota_fiscal (atualizaComRegistro nota reg)) :: naoCasados.map linhaOrfa
    | (none, reg :: resto) =>
        (atualizaComRegistro nota reg,
         validar_nota_fiscal (atualizaComRegistro nota reg)) :: resto.map linhaOrfa
    | (none, []) => [(nota, validar_nota_fiscal nota)]
  else if registros = [] then
    [(marcaSemRegistro nota, validar_nota_fiscal (marcaSemRegistro nota))]
  else
    [(nota, validar_nota_fiscal nota)]

/-- `List` concatenation of the per-invoice bodies: the batch loop keeps
`registros_bigquery` fixed across the invoices of one source document and
appends each invoice's rows to `resultados` in order. -/
def concatMapa (f : α → List β) : List α → List β
  | [] => []
  | a :: resto => f a ++ concatMapa f resto

/-- All result rows of one source document in the batch script. -/
def processaNotasBatch (registros : List RegistroBq) (notas : List Nota) :
    List (Nota × Validacao) :=
  concatMapa (processaNotaBatch registros) notas

/-- The number normalisation of the interactive app (src/app.py lines
527-530): `str(numero).strip()`, then `lstrip('0') or '0'`. -/
def normalizaNumeroNf (s : String) : String :=
  if String.mk ((pyStripL s.toList).dropWhile fun c => c == '0') = "" then "0"
  else String.mk ((pyStripL s.toList).dropWhile fun c => c == '0')

/-- src/app.py lines 527-530: the normalisation is applied only when the
`numero_nf` key is present and truthy (a non-empty string). -/
def preparaNotaApp (nota : Nota) : Nota :=
  match nota.numeroNf with
  | some s => if s ≠ "" then { nota with numeroNf := some (normalizaNumeroNf s) } else nota
  | none => nota

/-- The per-invoice body of the interactive app loop (src/app.py lines
520-558): normalise the invoice number, attach the FIRST ledger row whose
stripped number equals it (the loop breaks on the first hit, line 541),
write the three sentinels when there is no match or no ledger data or the
record is an error, then validate. -/
def aplicaMatchingApp (registros : List RegistroBq) (nota : Nota) : Nota :=
  if registros ≠ [] ∧ nota.erro = none then
    match registros.find? (fun reg =>
        decide (pyStrip reg.numDocumentoBq = pyStrip (nota.numeroNf.getD ""))) with
    | some reg => atualizaComRegistro nota reg
    | none => marcaSemRegistro nota
  else marcaSemRegistro nota

def processaNotaApp (registros : List RegistroBq) (nota0 : Nota) :
    Nota × Validacao :=
  (aplicaMatchingApp registros (preparaNotaApp nota0),
   validar_nota_fiscal (aplicaMatchingApp registros (preparaNotaApp nota0)))

/-- First-some choice, used to describe the last-match-wins accumulator. -/
def escolhe {α : Type} (a b : Option α) : Option α :=
  match a with
  | some x => some x
  | none => b

/-- Concrete record: a DANFE invoice whose document number is absent from
the ledger (`num_documento_bq` key never written). -/
def notaC7w : Nota :=
  { numeroPagina := some "1"
    cnpjPrestador := some "12345678000190"
    tipoDocumento := some "DANFE"
    numeroNf := some "999"
    valorTotal := some (MonVal.num 500)
    erro := none
    numDocumentoBq := some "N/A"
    valorDocumentoBq := some MonVal.na
    valorPagoTotalBq := some MonVal.na }

/-- Concrete invoice: extracted total 100.00, declared amount 100.009. -/
def notaC8sim : Nota :=
  { numeroPagina := some "1"
    cnpjPrestador := some "12345678000190"
    tipoDocumento := some "DANFE"
    numeroNf := some "123"
    valorTotal := some (MonVal.num 100)
    erro := none
    numDocumentoBq := some "123"
    valorDocumentoBq := some (MonVal.num (100009 / 1000))
    valorPagoTotalBq := some (MonVal.num 100) }

/-- Concrete invoice: extracted total 100.00, declared amount 100.02. -/
def notaC8nao : Nota :=
  { notaC8sim with valorDocumentoBq := some (MonVal.num (10002 / 100)) }

/-- Concrete record whose `tipo_documento` is "Informe". -/
def notaC10w : Nota :=
  { numeroPagina := some "2"
    cnpjPrestador := some "98765432000111"
    tipoDocumento := some "Informe"
    numeroNf := some "55"
    valorTotal := some (MonVal.num 10)
    erro := none
    numDocumentoBq := some "N/A"
    valorDocumentoBq := some MonVal.na
    valorPagoTotalBq := some MonVal.na }

/-- The three BigQuery keys are present on a row dict. -/
def camposBqPresentes (nota : Nota) : Prop :=
  nota.numDocumentoBq ≠ none ∧ nota.valorDocumentoBq ≠ none ∧
    nota.valorPagoTotalBq ≠ none

/-- An extraction-error record, as built by `processar_pdf_com_gemini`
(only the error key plus the filename keys are set). -/
def notaErroC2 : Nota :=
  { numeroPagina := none
    cnpjPrestador := none
    tipoDocumento := none
    numeroNf := none
    valorTotal := none
    erro := some "nota fiscal não encontrada"
    numDocumentoBq := none
    valorDocumentoBq := none
    valorPagoTotalBq := none }

def registroC2 : RegistroBq :=
  { numDocumentoBq := "777", valorDocumentoBq := MonVal.num 10,
    valorPagoTotalBq := MonVal.num 10 }

def notaC2w : Nota :=
  { numeroPagina := none
    cnpjPrestador := none
    tipoDocumento := none
    numeroNf := none
    valorTotal := none
    erro := none
    numDocumentoBq := none
    valorDocumentoBq := none
    valorPagoTotalBq := none }

/-- A DANFE invoice whose number "999" matches no ledger row. -/
def notaC3 : Nota :=
  { numeroPagina := some "1"
    cnpjPrestador := some "12345678000190"
    tipoDocumento := some "DANFE"
    numeroNf := some "999"
    valorTotal := some (MonVal.num 500)
    erro := none
    numDocumentoBq := none
    valorDocumentoBq := none
    valorPagoTotalBq := none }

def registroC3 : RegistroBq :=
  { numDocumentoBq := "777", valorDocumentoBq := MonVal.num 5,
    valorPagoTotalBq := MonVal.num 5 }

def notaC4 : Nota :=
  { numeroPagina := some "1"
    cnpjPrestador := some "12345678000190"
    tipoDocumento := some "DANFE"
    numeroNf := some "123"
    valorTotal := some (MonVal.num 10)
    erro := none
    numDocumentoBq := none
    valorDocumentoBq := none
    valorPagoTotalBq := none }

/-- Two ledger rows sharing the document number "123" with different
declared amounts. -/
def registroC4a : RegistroBq :=
  { numDocumentoBq := "123", valorDocumentoBq := MonVal.num 10,
    valorPagoTotalBq := MonVal.num 10 }

def registroC4b : RegistroBq :=
  { numDocumentoBq := "123", valorDocumentoBq := MonVal.num 20,
    valorPagoTotalBq := MonVal.num 20 }

/-- A DANFE invoice numbered "123" (no leading zeros). -/
def notaC5 : Nota :=
  { numeroPagina := some "1"
    cnpjPrestador := some "12345678000190"
    tipoDocumento := some "DANFE"
    numeroNf := some "123"
    valorTotal := some (MonVal.num 10)
    erro := none
    numDocumentoBq := none
    valorDocumentoBq := none
    valorPagoTotalBq := none }

/-- A ledger row numbered "00123" (zero padded). -/
def registroC5 : RegistroBq :=
  { numDocumentoBq := "00123", valorDocumentoBq := MonVal.num 10,
    valorPagoTotalBq := MonVal.num 10 }

def notaC6a : Nota :=
  { numeroPagina := some "1"
    cnpjPrestador := some "12345678000190"
    tipoDocumento := some "DANFE"
    numeroNf := some "1"
    valorTotal := some (MonVal.num 10)
    erro := none
    numDocumentoBq := none
    valorDocumentoBq := none
    valorPagoTotalBq := none }

def notaC6b : Nota :=
  { notaC6a with numeroNf := some "2" }

def registroC6m : RegistroBq :=
  { numDocumentoBq := "1", valorDocumentoBq := MonVal.num 10,
    valorPagoTotalBq := MonVal.num 10 }

/-- A ledger row ("777") matching no extracted invoice. -/
def registroC6o : RegistroBq :=
  { numDocumentoBq := "777", valorDocumentoBq := MonVal.num 5,
    valorPagoTotalBq := MonVal.num 5 }

theorem absQ_eq_abs (q : ℚ) : absQ q = |q| := by
  unfold absQ
  rcases lt_or_ge q 0 with h | h
  · rw [if_pos h, abs_of_neg h]
  · rw [if_neg (not_lt.mpr h), abs_of_nonneg h]

theorem escolhe_none {α : Type} (a : Option α) : escolhe a none = a := by
  cases a <;> rfl

theorem escolhe_getLast?_cons {α : Type} (l : List α) (a : α) (m : Option α) :
    escolhe ((a :: l).getLast?) m = escolhe l.getLast? (some a) := by
  cases l with
  | nil => simp [escolhe]
  | cons b bs =>
    have h : (b :: bs).getLast?.isSome := List.getLast?_isSome.mpr (by simp)
    obtain ⟨x, hx⟩ := Option.isSome_iff_exists.mp h
    simp [List.getLast?_cons_cons, hx, escolhe]

/-- Unfolding the batch matching loop over an arbitrary accumulator: the
final `registro_matching` is the LAST matching ledger row (or the starting
accumulator when none matches) and `registros_nao_matching` collects the
non-matching rows in order. -/
theorem separaRegistros_foldl (numero : String) (registros : List RegistroBq)
    (m : Option RegistroBq) (ns : List RegistroBq) :
    registros.foldl (passoSepara numero) (m, ns) =
      (escolhe ((registros.filter fun r => decide (pyStrip r.numDocumentoBq = numero)).getLast?) m,
       ns ++ registros.filter fun r => decide ¬(pyStrip r.numDocumentoBq = numero)) := by
  induction registros generalizing m ns with
  | nil => simp [escolhe]
  | cons r rs ih =>
    by_cases h : pyStrip r.numDocumentoBq = numero
    · simp only [List.foldl_cons, passoSepara, if_pos h]
      rw [ih]
      simp [List.filter_cons, h, escolhe_getLast?_cons]
    · simp only [List.foldl_cons, passoSepara, if_neg h]
      rw [ih]
      simp [List.filter_cons, h]

/-- Closed form of the batch matching loop. -/
theorem separaRegistros_eq (numero : String) (registros : List RegistroBq) :
    separaRegistros numero registros =
      ((registros.filter fun r => decide (pyStrip r.numDocumentoBq = numero)).getLast?,
       registros.filter fun r => decide ¬(pyStrip r.numDocumentoBq = numero)) := by
  unfold separaRegistros
  rw [separaRegistros_foldl, escolhe_none, List.nil_append]

/-- The batch matcher finds a match exactly when some ledger row's stripped
number equals the invoice's stripped number. -/
theorem separaRegistros_isSome (numero : String) (registros : List RegistroBq) :
    (separaRegistros numero registros).1.isSome ↔
      ∃ r ∈ registros, pyStrip r.numDocumentoBq = numero := by
  rw [separaRegistros_eq]
  simp only [List.getLast?_isSome, ne_eq, List.filter_eq_nil_iff, decide_eq_true_eq]
  push_neg
  simp

/-- When the rows after `reg` do not match, the batch matcher selects `reg`
(matches may occur before it: the loop overwrites them). -/
theorem separaRegistros_ultimo (numero : String) (antes depois : List RegistroBq)
    (reg : RegistroBq) (hreg : pyStrip reg.numDocumentoBq = numero)
    (hdepois : ∀ x ∈ depois, pyStrip x.numDocumentoBq ≠ numero) :
    (separaRegistros numero (antes ++ reg :: depois)).1 = some reg := by
  rw [separaRegistros_eq]
  have hfil : (depois.filter fun r => decide (pyStrip r.numDocumentoBq = numero)) = [] := by
    simp only [List.filter_eq_nil_iff, decide_eq_true_eq]
    exact hdepois
  simp [List.filter_cons, hreg, hfil, List.getLast?_concat]

/-- When the rows before `reg` do not match, the app matcher (`find?` with a
`break`) selects `reg` (matches may occur after it: the loop breaks). -/
theorem findRegistro_primeiro (numero : String) (antes depois : List RegistroBq)
    (reg : RegistroBq) (hreg : pyStrip reg.numDocumentoBq = numero)
    (hantes : ∀ x ∈ antes, pyStrip x.numDocumentoBq ≠ numero) :
    (antes ++ reg :: depois).find? (fun r => decide (pyStrip r.numDocumentoBq = numero))
      = some reg := by
  induction antes with
  | nil => simp [hreg]
  | cons a resto ih =>
    have ha : ¬(pyStrip a.numDocumentoBq = numero) := hantes a (by simp)
    simp only [List.cons_append]
    rw [List.find?_cons_of_neg _ (by simpa using ha)]
    exact ih fun x hx => hantes x (by simp [hx])

/-- Helper: `classificaRespostas` on a three-element list. -/
theorem classificaRespostas_tres (a b c : String) :
    (classificaRespostas [a, b, c] = "Descartado" ↔ a = "SIM" ∧ b = "SIM" ∧ c = "SIM") ∧
    (classificaRespostas [a, b, c] = "Descartado" ∨ classificaRespostas [a, b, c] = "Suspeito") := by
  unfold classificaRespostas
  by_cases ha : a = "SIM" <;> by_cases hb : b = "SIM" <;> by_cases hc : c = "SIM" <;>
    simp [ha, hb, hc]

/-- C1: a result row's classification is "Descartado" exactly when the three
verdict fields are all "SIM"; every other combination yields "Suspeito" or
"Não foi possível analisar" — never a silent pass. -/
theorem C1_descartado_sse_tudo_sim (nota : Nota) :
    ((validar_nota_fiscal nota).classificacaoFinal = "Descartado" ↔
      (validar_nota_fiscal nota).pdfPossuiNfEmDespesas = "SIM" ∧
      (validar_nota_fiscal nota).valorPagoMenorIgualDeclarado = "SIM" ∧
      (validar_nota_fiscal nota).valorNfIgualDeclarado = "SIM") ∧
    ((validar_nota_fiscal nota).classificacaoFinal = "Descartado" ∨
     (validar_nota_fiscal nota).classificacaoFinal = "Suspeito" ∨
     (validar_nota_fiscal nota).classificacaoFinal = "Não foi possível analisar") := by
  unfold validar_nota_fiscal
  split_ifs with h1 h2 h3
  · exact ⟨by simp [respostaNFPA], Or.inr (Or.inr rfl)⟩
  · exact ⟨by simp [respostaNFPA], Or.inr (Or.inr rfl)⟩
  · exact ⟨by simp, Or.inr (Or.inl rfl)⟩
  · have h := classificaRespostas_tres "SIM"
      (veredito2 (nota.valorPagoTotalBq.getD MonVal.na) (nota.valorDocumentoBq.getD MonVal.na))
      (veredito3 (nota.valorTotal.getD MonVal.na) (nota.valorDocumentoBq.getD MonVal.na))
    refine ⟨?_, ?_⟩
    · simpa using h.1
    · rcases h.2 with hc | hc <;> simp [hc]

/-- C7: whenever verdict 1 is "NÃO", verdicts 2 and 3 are both "N/A" and
the classification is "Suspeito" (the source returns early, performing no
amount comparison). -/
theorem C7_veredito1_nao (nota : Nota)
    (h : (validar_nota_fiscal nota).pdfPossuiNfEmDespesas = "NÃO") :
    (validar_nota_fiscal nota).valorPagoMenorIgualDeclarado = "N/A" ∧
    (validar_nota_fiscal nota).valorNfIgualDeclarado = "N/A" ∧
    (validar_nota_fiscal nota).classificacaoFinal = "Suspeito" := by
  unfold validar_nota_fiscal at h ⊢
  split_ifs at h ⊢ with h1 h2 h3
  · exact absurd h (by simp [respostaNFPA])
  · exact absurd h (by simp [respostaNFPA])
  · exact ⟨rfl, rfl, rfl⟩
  · exact absurd h (by simp)

theorem C7_testemunha :
    (validar_nota_fiscal notaC7w).valorPagoMenorIgualDeclarado = "N/A" ∧
    (validar_nota_fiscal notaC7w).valorNfIgualDeclarado = "N/A" ∧
    (validar_nota_fiscal notaC7w).classificacaoFinal = "Suspeito" :=
  C7_veredito1_nao notaC7w (by decide)

/-- C8: with both amounts present as numbers (and the earlier gates passed),
verdict 3 is "SIM" exactly when the absolute difference is strictly below
the configured tolerance, and "NÃO" otherwise. -/
theorem C8_tolerancia_veredito3 (nota : Nota) (total declarado : ℚ)
    (herro : nota.erro = none)
    (htipo : tipoDocumentoValido (nota.tipoDocumento.getD "") = true)
    (hnum : nota.numDocumentoBq.getD "N/A" ≠ "N/A")
    (htot : nota.valorTotal = some (MonVal.num total))
    (hdoc : nota.valorDocumentoBq = some (MonVal.num declarado)) :
    ((validar_nota_fiscal nota).valorNfIgualDeclarado = "SIM" ↔
      |total - declarado| < TOLERANCIA_COMPARACAO_VALORES) ∧
    ((validar_nota_fiscal nota).valorNfIgualDeclarado = "NÃO" ↔
      ¬ |total - declarado| < TOLERANCIA_COMPARACAO_VALORES) := by
  unfold validar_nota_fiscal
  rw [herro]
  simp only [Option.isSome_none, Bool.false_eq_true, if_false, htipo, Bool.not_true]
  rw [if_neg hnum, htot, hdoc]
  simp only [Option.getD_some]
  unfold veredito3
  by_cases h : |total - declarado| < TOLERANCIA_COMPARACAO_VALORES <;>
    simp [h, paraFloat, absQ_eq_abs]

theorem C8_testemunha :
    (validar_nota_fiscal notaC8sim).valorNfIgualDeclarado = "SIM" ∧
    (validar_nota_fiscal notaC8nao).valorNfIgualDeclarado = "NÃO" :=
  ⟨(C8_tolerancia_veredito3 notaC8sim 100 (100009 / 1000) rfl (by decide) (by decide)
      rfl rfl).1.mpr
      (by
        have h : |(100 : ℚ) - 100009 / 1000| = 9 / 1000 := by
          rw [abs_sub_comm, abs_of_nonneg (by norm_num : (0 : ℚ) ≤ 100009 / 1000 - 100)]
          norm_num
        rw [h]; norm_num [TOLERANCIA_COMPARACAO_VALORES]),
   (C8_tolerancia_veredito3 notaC8nao 100 (10002 / 100) rfl (by decide) (by decide)
      rfl rfl).2.mpr
      (by
        have h : |(100 : ℚ) - 10002 / 100| = 1 / 50 := by
          rw [abs_sub_comm, abs_of_nonneg (by norm_num : (0 : ℚ) ≤ 10002 / 100 - 100)]
          norm_num
        rw [h]; norm_num [TOLERANCIA_COMPARACAO_VALORES])⟩

/-- C10: the document-type gate is substring containment, so the type
"Informe" — not an invoice type, but containing "nf" — passes the gate, and
validation proceeds to the verdicts instead of stopping with
"Não foi possível analisar". -/
theorem C10_subcadeia_passa_no_filtro (nota : Nota) (herro : nota.erro = none)
    (htipo : nota.tipoDocumento = some "Informe") :
    tipoDocumentoValido "Informe" = true ∧
    (validar_nota_fiscal nota).pdfPossuiNfEmDespesas ≠ "N/A" ∧
    (validar_nota_fiscal nota).classificacaoFinal ≠ "Não foi possível analisar" := by
  have hval : tipoDocumentoValido "Informe" = true := by decide
  refine ⟨hval, ?_⟩
  have hgate : tipoDocumentoValido (nota.tipoDocumento.getD "") = true := by
    rw [htipo]; exact hval
  unfold validar_nota_fiscal
  rw [herro]
  simp only [Option.isSome_none, Bool.false_eq_true, if_false, hgate, Bool.not_true]
  split_ifs with h3
  · exact ⟨by simp, by simp⟩
  · refine ⟨by simp, ?_⟩
    rcases (classificaRespostas_tres "SIM"
        (veredito2 (nota.valorPagoTotalBq.getD MonVal.na) (nota.valorDocumentoBq.getD MonVal.na))
        (veredito3 (nota.valorTotal.getD MonVal.na) (nota.valorDocumentoBq.getD MonVal.na))).2
      with hc | hc <;> simp [hc]

theorem C10_testemunha :
    tipoDocumentoValido "Informe" = true ∧
    (validar_nota_fiscal notaC10w).pdfPossuiNfEmDespesas ≠ "N/A" ∧
    (validar_nota_fiscal notaC10w).classificacaoFinal ≠ "Não foi possível analisar" :=
  C10_subcadeia_passa_no_filtro notaC10w rfl rfl

theorem dropWhile_eq_self_de {p : Char → Bool} {l : List Char}
    (h : ∀ c ∈ l, p c = false) : l.dropWhile p = l := by
  cases l with
  | nil => rfl
  | cons c cs => simp [List.dropWhile_cons, h c (List.mem_cons_self c cs)]

theorem pyStripL_eq_self {l : List Char} (h : ∀ c ∈ l, isPySpace c = false) :
    pyStripL l = l := by
  unfold pyStripL
  rw [dropWhile_eq_self_de h,
    dropWhile_eq_self_de (fun c hc => h c (List.mem_reverse.mp hc)),
    List.reverse_reverse]

theorem dropWhile_head_false {p : Char → Bool} {l cs : List Char} {c : Char}
    (h : l.dropWhile p = c :: cs) : p c = false := by
  induction l with
  | nil => simp at h
  | cons a resto ih =>
    rw [List.dropWhile_cons] at h
    by_cases ha : p a
    · rw [if_pos ha] at h; exact ih h
    · rw [if_neg ha] at h
      injection h with h1 _
      subst h1
      simpa using ha

/-- C9 counterexample: "0 45" strips to itself, `lstrip('0')` then exposes
the inner space, giving " 45"; normalising again strips that space, so the
result changes — normalisation is not idempotent on every string. -/
theorem C9_contraexemplo :
    normalizaNumeroNf "0 45" = " 45" ∧
    normalizaNumeroNf (normalizaNumeroNf "0 45") = "45" ∧
    normalizaNumeroNf (normalizaNumeroNf "0 45") ≠ normalizaNumeroNf "0 45" :=
  ⟨by decide, by decide, by decide⟩

/-- C9 amended: on strings with no whitespace characters (in particular the
all-digit document numbers the normaliser is meant for) normalisation is
idempotent, and the three concrete examples of the spec hold. -/
theorem C9_amended_idempotente :
    (∀ s : String, (∀ c ∈ s.toList, isPySpace c = false) →
      normalizaNumeroNf (normalizaNumeroNf s) = normalizaNumeroNf s) ∧
    normalizaNumeroNf "00045" = "45" ∧
    normalizaNumeroNf "0" = "0" ∧
    normalizaNumeroNf "000" = "0" := by
  refine ⟨?_, by decide, by decide, by decide⟩
  intro s hws
  have hstrip : pyStripL s.toList = s.toList := pyStripL_eq_self hws
  cases hdrop : s.toList.dropWhile (fun c => c == '0') with
  | nil =>
    have hn : normalizaNumeroNf s = "0" := by
      unfold normalizaNumeroNf
      rw [hstrip, hdrop]
      decide
    rw [hn]
    decide
  | cons c cs =>
    have hc : (c == '0') = false :=
      dropWhile_head_false (p := fun x => x == '0') hdrop
    have hmem : ∀ x ∈ c :: cs, isPySpace x = false := by
      intro x hx
      exact hws x ((List.dropWhile_sublist _).subset (hdrop ▸ hx))
    have hne : String.mk (c :: cs) ≠ "" := by
      intro hcontra
      have h2 : c :: cs = ([] : List Char) := by
        simpa using congrArg String.data hcontra
      exact List.noConfusion h2
    have hn : normalizaNumeroNf s = String.mk (c :: cs) := by
      unfold normalizaNumeroNf
      rw [hstrip, hdrop, if_neg hne]
    have hdrop2 : (c :: cs).dropWhile (fun x => x == '0') = c :: cs := by
      rw [List.dropWhile_cons, hc]
      simp
    rw [hn]
    unfold normalizaNumeroNf
    have htl : (String.mk (c :: cs)).toList = c :: cs := rfl
    rw [htl, pyStripL_eq_self hmem, hdrop2, if_neg hne]

theorem C9_testemunha :
    normalizaNumeroNf (normalizaNumeroNf "00045") = normalizaNumeroNf "00045" ∧
    normalizaNumeroNf "00045" = "45" :=
  ⟨C9_amended_idempotente.1 "00045" (by decide), C9_amended_idempotente.2.1⟩

theorem camposBqPresentes_atualiza (nota : Nota) (reg : RegistroBq) :
    camposBqPresentes (atualizaComRegistro nota reg) := by
  simp [camposBqPresentes, atualizaComRegistro]

theorem camposBqPresentes_marca (nota : Nota) :
    camposBqPresentes (marcaSemRegistro nota) := by
  simp [camposBqPresentes, marcaSemRegistro]

/-- A nonempty ledger list never leaves the batch matcher with neither a
match nor non-matching rows. -/
theorem separaRegistros_nao_vazio (numero : String) (registros : List RegistroBq)
    (h : registros ≠ []) :
    separaRegistros numero registros ≠ (none, ([] : List RegistroBq)) := by
  intro hcontra
  rw [separaRegistros_eq] at hcontra
  have h1 := congrArg Prod.fst hcontra
  have h2 := congrArg Prod.snd hcontra
  simp only at h1 h2
  have h1b : (registros.filter fun x =>
      decide (pyStrip x.numDocumentoBq = numero)) = [] := by
    by_contra hne
    have hs := List.getLast?_isSome.mpr hne
    rw [h1] at hs
    simp at hs
  cases registros with
  | nil => exact h rfl
  | cons r rs =>
    have hm := List.filter_eq_nil_iff.mp h1b r (List.mem_cons_self r rs)
    have hnm := List.filter_eq_nil_iff.mp h2 r (List.mem_cons_self r rs)
    simp only [decide_eq_true_eq] at hm
    simp only [decide_not, Bool.not_eq_true] at hnm
    have hnm2 : pyStrip r.numDocumentoBq = numero := by
      by_contra hx
      rw [decide_eq_false hx] at hnm
      simp at hnm
    exact hm hnm2

/-- C2 counterexample: in the batch script, an error record processed while
the ledger returned rows is emitted WITHOUT the three BigQuery keys (the
`'N/A'` assignment of lines 376-379 is guarded by `if not registros_bigquery`),
so the emitted row is missing all three matched-ledger fields. -/
theorem C2_contraexemplo :
    processaNotaBatch [registroC2] notaErroC2 = [(notaErroC2, respostaNFPA)] ∧
    notaErroC2.numDocumentoBq = none ∧
    notaErroC2.valorDocumentoBq = none ∧
    notaErroC2.valorPagoTotalBq = none :=
  ⟨by decide, rfl, rfl, rfl⟩

/-- C2 amended: every row of the interactive app carries the three matched
ledger fields; in the batch script this holds for every row except the
error-record rows processed while ledger rows exist — i.e. whenever the
ledger list is empty or the record is not an error record. -/
theorem C2_amended_campos_presentes (registros : List RegistroBq) (nota : Nota) :
    camposBqPresentes (processaNotaApp registros nota).1 ∧
    (registros = [] ∨ nota.erro = none →
      ∀ linha ∈ processaNotaBatch registros nota, camposBqPresentes linha.1) := by
  constructor
  · show camposBqPresentes (aplicaMatchingApp registros (preparaNotaApp nota))
    unfold aplicaMatchingApp
    split
    · split
      · exact camposBqPresentes_atualiza _ _
      · exact camposBqPresentes_marca _
    · exact camposBqPresentes_marca _
  · intro hcond linha hlinha
    unfold processaNotaBatch at hlinha
    by_cases hif : registros ≠ [] ∧ nota.erro = none
    · rw [if_pos hif] at hlinha
      rcases hsep : separaRegistros (pyStrip (nota.numeroNf.getD "")) registros
        with ⟨m, nao⟩
      rw [hsep] at hlinha
      rcases m with _ | reg
      · rcases nao with _ | ⟨reg, resto⟩
        · exact absurd hsep (separaRegistros_nao_vazio _ _ hif.1)
        · rcases List.mem_cons.mp hlinha with hl | hl
          · rw [hl]
            exact camposBqPresentes_atualiza _ _
          · obtain ⟨r, _, hr⟩ := List.mem_map.mp hl
            rw [← hr]
            exact camposBqPresentes_atualiza _ _
      · rcases List.mem_cons.mp hlinha with hl | hl
        · rw [hl]
          exact camposBqPresentes_atualiza _ _
        · obtain ⟨r, _, hr⟩ := List.mem_map.mp hl
          rw [← hr]
          exact camposBqPresentes_atualiza _ _
    · rw [if_neg hif] at hlinha
      have hvazio : registros = [] := by
        rcases hcond with hv | he
        · exact hv
        · by_contra hne
          exact hif ⟨hne, he⟩
      rw [if_pos hvazio] at hlinha
      rcases List.mem_singleton.mp hlinha with rfl
      exact camposBqPresentes_marca _

theorem C2_testemunha :
    camposBqPresentes (processaNotaApp [] notaC2w).1 ∧
    camposBqPresentes (marcaSemRegistro notaC2w) :=
  ⟨(C2_amended_campos_presentes [] notaC2w).1,
   (C2_amended_campos_presentes [] notaC2w).2 (Or.inl rfl)
     (marcaSemRegistro notaC2w, validar_nota_fiscal (marcaSemRegistro notaC2w))
     (by decide)⟩

/-- `preparaNotaApp` only rewrites the `numero_nf` key. -/
theorem preparaNotaApp_erro (nota : Nota) :
    (preparaNotaApp nota).erro = nota.erro := by
  unfold preparaNotaApp
  split <;> first | rfl | (split <;> rfl)

theorem preparaNotaApp_tipo (nota : Nota) :
    (preparaNotaApp nota).tipoDocumento = nota.tipoDocumento := by
  unfold preparaNotaApp
  split <;> first | rfl | (split <;> rfl)

/-- C3 counterexample: in the batch script, a non-error invoice with zero
matching ledger rows does NOT proceed with the three "N/A" sentinels when
the ledger list is nonempty: the fallback of lines 344-347 attaches the
first non-matching ledger row ("777") to it. -/
theorem C3_contraexemplo :
    normalizaNumeroNf registroC3.numDocumentoBq ≠
      normalizaNumeroNf (notaC3.numeroNf.getD "") ∧
    pyStrip registroC3.numDocumentoBq ≠ pyStrip (notaC3.numeroNf.getD "") ∧
    (processaNotaBatch [registroC3] notaC3).map (fun linha => linha.1.numDocumentoBq)
      = [some "777"] :=
  ⟨by decide, by decide, by decide⟩

/-- C3 amended: the no-match policy holds in the interactive app variant —
zero matching ledger rows leave the invoice with the three "N/A" sentinels
(and verdict 1 "NÃO" once the earlier gates pass) — and in the batch
variant only when the ledger returned zero rows at all; with a nonempty
ledger list the batch variant attaches a non-matching row instead. -/
theorem C3_amended_sem_match (registros : List RegistroBq) (nota : Nota)
    (hnomatch : ∀ r ∈ registros,
      pyStrip r.numDocumentoBq ≠ pyStrip ((preparaNotaApp nota).numeroNf.getD "")) :
    (processaNotaApp registros nota).1.numDocumentoBq = some "N/A" ∧
    (processaNotaApp registros nota).1.valorDocumentoBq = some MonVal.na ∧
    (processaNotaApp registros nota).1.valorPagoTotalBq = some MonVal.na ∧
    (nota.erro = none → tipoDocumentoValido (nota.tipoDocumento.getD "") = true →
      (processaNotaApp registros nota).2.pdfPossuiNfEmDespesas = "NÃO") ∧
    (processaNotaBatch [] nota).map (fun linha => linha.1.numDocumentoBq)
      = [some "N/A"] := by
  have hA : aplicaMatchingApp registros (preparaNotaApp nota)
      = marcaSemRegistro (preparaNotaApp nota) := by
    unfold aplicaMatchingApp
    split
    · have hf : registros.find? (fun reg =>
          decide (pyStrip reg.numDocumentoBq
            = pyStrip ((preparaNotaApp nota).numeroNf.getD ""))) = none :=
        List.find?_eq_none.mpr fun x hx => by simpa using hnomatch x hx
      rw [hf]
    · rfl
  refine ⟨?_, ?_, ?_, ?_, ?_⟩
  · show (aplicaMatchingApp registros (preparaNotaApp nota)).numDocumentoBq = _
    rw [hA]; rfl
  · show (aplicaMatchingApp registros (preparaNotaApp nota)).valorDocumentoBq = _
    rw [hA]; rfl
  · show (aplicaMatchingApp registros (preparaNotaApp nota)).valorPagoTotalBq = _
    rw [hA]; rfl
  · intro herro htipo
    show (validar_nota_fiscal
      (aplicaMatchingApp registros (preparaNotaApp nota))).pdfPossuiNfEmDespesas = _
    rw [hA]
    have herro2 : (marcaSemRegistro (preparaNotaApp nota)).erro = none := by
      show (preparaNotaApp nota).erro = none
      rw [preparaNotaApp_erro]; exact herro
    have htipo2 : tipoDocumentoValido
        ((marcaSemRegistro (preparaNotaApp nota)).tipoDocumento.getD "") = true := by
      show tipoDocumentoValido ((preparaNotaApp nota).tipoDocumento.getD "") = true
      rw [preparaNotaApp_tipo]; exact htipo
    unfold validar_nota_fiscal
    rw [herro2]
    simp only [Option.isSome_none, Bool.false_eq_true, if_false, htipo2, Bool.not_true]
    rw [if_pos
      (show (marcaSemRegistro (preparaNotaApp nota)).numDocumentoBq.getD "N/A" = "N/A"
        from rfl)]
  · rfl

theorem C3_testemunha :
    (processaNotaApp [registroC3] notaC3).1.numDocumentoBq = some "N/A" ∧
    (processaNotaApp [registroC3] notaC3).2.pdfPossuiNfEmDespesas = "NÃO" := by
  have h := C3_amended_sem_match [registroC3] notaC3 (by decide)
  exact ⟨h.1, h.2.2.2.1 rfl (by decide)⟩

/-- C4 counterexample: with two ledger rows of the same number, the batch
matcher attaches the SECOND (last) one — `registro_matching` is overwritten
on every hit, there is no `break` — so the selected row is not the first in
query order. -/
theorem C4_contraexemplo :
    (processaNotaBatch [registroC4a, registroC4b] notaC4).map
        (fun linha => linha.1.valorDocumentoBq) = [some (MonVal.num 20)] ∧
    registroC4a.valorDocumentoBq = MonVal.num 10 ∧
    registroC4b.valorDocumentoBq = MonVal.num 20 ∧
    MonVal.num 10 ≠ MonVal.num 20 :=
  ⟨by decide, rfl, rfl, by decide⟩

/-- C4 amended: when several ledger rows carry the invoice's document
number, the batch matcher of `processar_todos_pdfs` selects the LAST such
row in query order, while the app matcher (`break` on first hit) selects
the FIRST; in both variants at most one row — an element of the query
result — is attached. -/
theorem C4_amended_ultimo_e_primeiro (numero : String)
    (antes depois : List RegistroBq) (reg : RegistroBq)
    (hreg : pyStrip reg.numDocumentoBq = numero) :
    ((∀ x ∈ depois, pyStrip x.numDocumentoBq ≠ numero) →
      (separaRegistros numero (antes ++ reg :: depois)).1 = some reg) ∧
    ((∀ x ∈ antes, pyStrip x.numDocumentoBq ≠ numero) →
      (antes ++ reg :: depois).find?
          (fun r => decide (pyStrip r.numDocumentoBq = numero)) = some reg) ∧
    (∀ registros : List RegistroBq, ∀ r : RegistroBq,
      (separaRegistros numero registros).1 = some r → r ∈ registros) := by
  refine ⟨fun hdepois => separaRegistros_ultimo numero antes depois reg hreg hdepois,
    fun hantes => findRegistro_primeiro numero antes depois reg hreg hantes,
    fun registros r hr => ?_⟩
  rw [separaRegistros_eq] at hr
  simp only at hr
  have hmem := List.mem_of_getLast?_eq_some hr
  exact List.mem_of_mem_filter hmem

/-- C5 counterexample: "00123" and "123" normalise to the same value, yet
the app matcher does NOT pair them — the ledger side is only
whitespace-trimmed, never zero-stripped — so the invoice ends with the
"N/A" sentinels instead of the ledger row. -/
theorem C5_contraexemplo :
    normalizaNumeroNf registroC5.numDocumentoBq
      = normalizaNumeroNf (notaC5.numeroNf.getD "") ∧
    (processaNotaApp [registroC5] notaC5).1.numDocumentoBq = some "N/A" ∧
    (some "N/A" : Option String) ≠ some registroC5.numDocumentoBq :=
  ⟨by decide, by decide, by decide⟩

/-- C5 amended: both matchers pair an invoice with a ledger row exactly when
the whitespace-trimmed ledger number equals the invoice-side key as an
exact string (no fuzzy matching); the full normalisation (trim, strip
leading zeros, empty → "0") is applied only to the invoice side and only in
the app variant, so zero-padding differences on the ledger side still
prevent a match. -/
theorem C5_amended_igualdade_exata (numero : String) (registros : List RegistroBq)
    (nota : Nota) :
    ((separaRegistros numero registros).1.isSome ↔
      ∃ r ∈ registros, pyStrip r.numDocumentoBq = numero) ∧
    ((registros.find? (fun r => decide (pyStrip r.numDocumentoBq = numero))).isSome ↔
      ∃ r ∈ registros, pyStrip r.numDocumentoBq = numero) ∧
    (∀ s : String, nota.numeroNf = some s → s ≠ "" →
      (preparaNotaApp nota).numeroNf = some (normalizaNumeroNf s)) := by
  refine ⟨separaRegistros_isSome numero registros, by simp [List.find?_isSome], ?_⟩
  intro s hs hne
  unfold preparaNotaApp
  rw [hs]
  dsimp only
  rw [if_pos hne]

theorem C5_testemunha :
    (preparaNotaApp notaC5).numeroNf = some (normalizaNumeroNf "123") ∧
    (separaRegistros "123" [registroC4a]).1.isSome = true :=
  ⟨(C5_amended_igualdade_exata "123" [registroC4a] notaC5).2.2 "123" rfl (by decide),
   (C5_amended_igualdade_exata "123" [registroC4a] notaC5).1.mpr
     ⟨registroC4a, by decide, by decide⟩⟩

/-- C6 counterexample: the batch script re-partitions the FULL ledger list
for every extracted invoice, so the ledger row "777" — matched by no
invoice of the document — is emitted as an orphan row once per invoice:
twice here, not exactly once. -/
theorem C6_contraexemplo :
    pyStrip registroC6o.numDocumentoBq ≠ pyStrip (notaC6a.numeroNf.getD "") ∧
    pyStrip registroC6o.numDocumentoBq ≠ pyStrip (notaC6b.numeroNf.getD "") ∧
    ((processaNotasBatch [registroC6m, registroC6o] [notaC6a, notaC6b]).filter
      (fun linha => decide (linha.1.numDocumentoBq = some "777"))).length = 2 :=
  ⟨by decide, by decide, by decide⟩

/-- C6 amended: orphan emission is per extracted invoice, not per source
document: for each non-error invoice whose number matches some ledger row,
the batch script emits, after the invoice's own row, exactly one orphan row
per NON-matching ledger row of the full list, in query order, with every
invoice field blank — so with several invoices the same ledger row can be
emitted several times. -/
theorem C6_amended_orfas_por_nota (nota : Nota) (registros naoCasados : List RegistroBq)
    (reg : RegistroBq) (herro : nota.erro = none)
    (hsep : separaRegistros (pyStrip (nota.numeroNf.getD "")) registros
      = (some reg, naoCasados)) :
    processaNotaBatch registros nota
      = (atualizaComRegistro nota reg,
         validar_nota_fiscal (atualizaComRegistro nota reg)) :: naoCasados.map linhaOrfa ∧
    naoCasados = registros.filter
      (fun r => decide ¬(pyStrip r.numDocumentoBq = pyStrip (nota.numeroNf.getD ""))) ∧
    ∀ r : RegistroBq,
      (linhaOrfa r).1.numeroPagina = some "" ∧
      (linhaOrfa r).1.cnpjPrestador = some "" ∧
      (linhaOrfa r).1.tipoDocumento = some "" ∧
      (linhaOrfa r).1.numeroNf = some "" ∧
      (linhaOrfa r).1.valorTotal = some (MonVal.texto "") ∧
      (linhaOrfa r).1.numDocumentoBq = some r.numDocumentoBq := by
  have hne : registros ≠ [] := by
    intro h
    subst h
    simp [separaRegistros] at hsep
  refine ⟨?_, ?_, fun r => ⟨rfl, rfl, rfl, rfl, rfl, rfl⟩⟩
  · unfold processaNotaBatch
    rw [if_pos ⟨hne, herro⟩, hsep]
  · have heq := separaRegistros_eq (pyStrip (nota.numeroNf.getD "")) registros
    rw [hsep] at heq
    exact congrArg Prod.snd heq

theorem C6_testemunha :
    processaNotaBatch [registroC6m, registroC6o] notaC6a
      = (atualizaComRegistro notaC6a registroC6m,
         validar_nota_fiscal (atualizaComRegistro notaC6a registroC6m))
        :: [registroC6o].map linhaOrfa ∧
    (linhaOrfa registroC6o).1.tipoDocumento = some "" := by
  have h := C6_amended_orfas_por_nota notaC6a [registroC6m, registroC6o] [registroC6o]
    registroC6m rfl (by decide)
  exact ⟨h.1, (h.2.2 registroC6o).2.2.1⟩

theorem C4_testemunha :
    (separaRegistros "123" [registroC4a, registroC4b]).1 = some registroC4b ∧
    ([registroC4a, registroC4b].find?
        (fun r => decide (pyStrip r.numDocumentoBq = "123"))) = some registroC4a ∧
    registroC4b ∈ [registroC4a, registroC4b] := by
  have hb := C4_amended_ultimo_e_primeiro "123" [registroC4a] [] registroC4b (by decide)
  have ha := C4_amended_ultimo_e_primeiro "123" [] [registroC4b] registroC4a (by decide)
  exact ⟨hb.1 (by decide), ha.2.1 (by decide),
    hb.2.2 [registroC4a, registroC4b] registroC4b (hb.1 (by decide))⟩
